import Mathlib

/-!
# Verification of dhcpcd's Linux privilege-separation driver

A shallow embedding of `src/privsep-linux.c` (dhcpcd's Linux privsep
driver): the seccomp BPF allow-list filter `ps_seccomp_filter`, its
construction macros `SECCOMP_ALLOW` / `SECCOMP_ALLOW_ARG`, the sandbox
installer `ps_seccomp_enter`, and the privileged-relay functions
`ps_root_dosendnetlink`, `ps_root_os` and `ps_root_sendnetlink`.

The embedding fixes the build target to x86_64 / little-endian Linux
(`__x86_64__`, `BYTE_ORDER == LITTLE_ENDIAN`), so the conditional
compilation in the C file resolves to a concrete instruction list and the
syscall numbers are the x86_64 ones.  Machine integers are modelled as
`Nat` with explicit `% 2^32` / `% 2^64` where the machine truncates.

Kernel calls made by the relay (socket open, sendmsg, netlink receive,
prctl) are modelled as an explicit environment of outcomes plus an event
trace, so that resource accounting (one socket opened, one closed) is a
statement about the trace.
-/

/-! ## Classic BPF constants (linux/bpf_common.h, linux/seccomp.h) -/

def BPF_LD : Nat := 0x00
def BPF_W : Nat := 0x00
def BPF_ABS : Nat := 0x20
def BPF_JMP : Nat := 0x05
def BPF_JEQ : Nat := 0x10
def BPF_K : Nat := 0x00
def BPF_RET : Nat := 0x06

def SECCOMP_RET_ALLOW : Nat := 0x7fff0000
def SECCOMP_RET_KILL : Nat := 0x00000000
def SECCOMP_RET_ERRNO : Nat := 0x00050000

/-- `#define SECCOMP_FILTER_FAIL SECCOMP_RET_KILL` (privsep-linux.c:128). -/
def SECCOMP_FILTER_FAIL : Nat := SECCOMP_RET_KILL

/-- `AUDIT_ARCH_X86_64` (linux/audit.h): `EM_X86_64 | __AUDIT_ARCH_64BIT |
__AUDIT_ARCH_LE`; the value of `SECCOMP_AUDIT_ARCH` on an x86_64 build. -/
def SECCOMP_AUDIT_ARCH : Nat := 0xc000003e

/-! Offsets in `struct seccomp_data` on x86_64: `nr` (int) at 0, `arch`
(u32) at 4, `instruction_pointer` (u64) at 8, `args[6]` (u64 each) at 16.
On a little-endian build (privsep-linux.c:100-102) `SECCOMP_ARG_LO = 0`
and `SECCOMP_ARG_HI = 4`. -/

def seccomp_data_nr : Nat := 0
def seccomp_data_arch : Nat := 4
def seccomp_data_args (i : Nat) : Nat := 16 + 8 * i
def SECCOMP_ARG_LO : Nat := 0
def SECCOMP_ARG_HI : Nat := 4

/-! ## x86_64 syscall numbers and ioctl request codes

The `__NR_*` constants of `asm/unistd_64.h` for the syscalls whose
`#ifdef` guard is satisfied on x86_64 (`__NR_clock_gettime64`,
`__NR_ppoll_time64` and the x32 variant are not defined there), and the
`SIOCGIF*` request codes of `linux/sockios.h`. -/

def NR_read : Nat := 0
def NR_write : Nat := 1
def NR_close : Nat := 3
def NR_fstat : Nat := 5
def NR_mmap : Nat := 9
def NR_munmap : Nat := 11
def NR_brk : Nat := 12
def NR_rt_sigreturn : Nat := 15
def NR_ioctl : Nat := 16
def NR_readv : Nat := 19
def NR_writev : Nat := 20
def NR_getpid : Nat := 39
def NR_socket : Nat := 41
def NR_accept : Nat := 43
def NR_sendto : Nat := 44
def NR_recvfrom : Nat := 45
def NR_sendmsg : Nat := 46
def NR_recvmsg : Nat := 47
def NR_shutdown : Nat := 48
def NR_wait4 : Nat := 61
def NR_uname : Nat := 63
def NR_fcntl : Nat := 72
def NR_gettimeofday : Nat := 96
def NR_clock_gettime : Nat := 228
def NR_ppoll : Nat := 271
def NR_exit_group : Nat := 231

def SIOCGIFFLAGS : Nat := 0x8913
def SIOCGIFMTU : Nat := 0x8921
def SIOCGIFHWADDR : Nat := 0x8927
def SIOCGIFINDEX : Nat := 0x8933
def SIOCGIFVLAN : Nat := 0x8982

/-! ## BPF instructions and the filter program -/

/-- `struct sock_filter` (linux/filter.h): {code, jt, jf, k}. -/
structure sock_filter where
  code : Nat
  jt : Nat
  jf : Nat
  k : Nat
deriving DecidableEq

/-- `BPF_STMT(code, k)`. -/
def BPF_STMT (code k : Nat) : sock_filter := ⟨code, 0, 0, k⟩

/-- `BPF_JUMP(code, k, jt, jf)`. -/
def BPF_JUMP (code k jt jf : Nat) : sock_filter := ⟨code, jt, jf, k⟩

/-- `SECCOMP_ALLOW(_nr)` (privsep-linux.c:110-112): if the accumulator
(holding the syscall number) equals `_nr`, return allow; otherwise skip
the return and fall through to the next rule. -/
def SECCOMP_ALLOW (nr : Nat) : List sock_filter :=
  [BPF_JUMP (BPF_JMP + BPF_JEQ + BPF_K) nr 0 1,
   BPF_STMT (BPF_RET + BPF_K) SECCOMP_RET_ALLOW]

/-- `SECCOMP_ALLOW_ARG(_nr, _arg, _val)` (privsep-linux.c:114-126): match
the syscall number, load the argument's low then high 32-bit word and
compare each half of `_val`; allow only if both halves match, otherwise
jump to the final instruction, which reloads the syscall number, and fall
through to the next rule. -/
def SECCOMP_ALLOW_ARG (nr arg val : Nat) : List sock_filter :=
  [BPF_JUMP (BPF_JMP + BPF_JEQ + BPF_K) nr 0 6,
   BPF_STMT (BPF_LD + BPF_W + BPF_ABS) (seccomp_data_args arg + SECCOMP_ARG_LO),
   BPF_JUMP (BPF_JMP + BPF_JEQ + BPF_K) (val % 2 ^ 32) 0 3,
   BPF_STMT (BPF_LD + BPF_W + BPF_ABS) (seccomp_data_args arg + SECCOMP_ARG_HI),
   BPF_JUMP (BPF_JMP + BPF_JEQ + BPF_K) (val / 2 ^ 32 % 2 ^ 32) 0 1,
   BPF_STMT (BPF_RET + BPF_K) SECCOMP_RET_ALLOW,
   BPF_STMT (BPF_LD + BPF_W + BPF_ABS) seccomp_data_nr]

/-- `ps_seccomp_filter` (privsep-linux.c:193-295) as compiled for x86_64:
the architecture check, the syscall-number load, the allow-list entries in
source order, and the terminal default-deny return. -/
def ps_seccomp_filter : List sock_filter :=
  [BPF_STMT (BPF_LD + BPF_W + BPF_ABS) seccomp_data_arch,
   BPF_JUMP (BPF_JMP + BPF_JEQ + BPF_K) SECCOMP_AUDIT_ARCH 1 0,
   BPF_STMT (BPF_RET + BPF_K) SECCOMP_FILTER_FAIL,
   BPF_STMT (BPF_LD + BPF_W + BPF_ABS) seccomp_data_nr]
  ++ SECCOMP_ALLOW NR_accept
  ++ SECCOMP_ALLOW NR_brk
  ++ SECCOMP_ALLOW NR_clock_gettime
  ++ SECCOMP_ALLOW NR_close
  ++ SECCOMP_ALLOW NR_exit_group
  ++ SECCOMP_ALLOW NR_fcntl
  ++ SECCOMP_ALLOW NR_fstat
  ++ SECCOMP_ALLOW NR_gettimeofday
  ++ SECCOMP_ALLOW NR_getpid
  ++ SECCOMP_ALLOW_ARG NR_ioctl 1 SIOCGIFFLAGS
  ++ SECCOMP_ALLOW_ARG NR_ioctl 1 SIOCGIFHWADDR
  ++ SECCOMP_ALLOW_ARG NR_ioctl 1 SIOCGIFINDEX
  ++ SECCOMP_ALLOW_ARG NR_ioctl 1 SIOCGIFMTU
  ++ SECCOMP_ALLOW_ARG NR_ioctl 1 SIOCGIFVLAN
  ++ SECCOMP_ALLOW NR_mmap
  ++ SECCOMP_ALLOW NR_munmap
  ++ SECCOMP_ALLOW NR_ppoll
  ++ SECCOMP_ALLOW NR_read
  ++ SECCOMP_ALLOW NR_readv
  ++ SECCOMP_ALLOW NR_recvfrom
  ++ SECCOMP_ALLOW NR_recvmsg
  ++ SECCOMP_ALLOW NR_rt_sigreturn
  ++ SECCOMP_ALLOW NR_sendmsg
  ++ SECCOMP_ALLOW NR_sendto
  ++ SECCOMP_ALLOW NR_shutdown
  ++ SECCOMP_ALLOW NR_wait4
  ++ SECCOMP_ALLOW NR_write
  ++ SECCOMP_ALLOW NR_writev
  ++ SECCOMP_ALLOW NR_uname
  ++ [BPF_STMT (BPF_RET + BPF_K) SECCOMP_FILTER_FAIL]

/-! ## The seccomp data and the BPF evaluator -/

/-- The kernel-provided `struct seccomp_data` for a trapped syscall.
`nr` and `arch` are 32-bit fields, `args i` are the 64-bit argument
registers (indices 0..5; larger indices never arise, the filter's loads
stay inside the structure). -/
structure SeccompData where
  nr : Nat
  arch : Nat
  ip : Nat
  args : Nat → Nat

/-- A 32-bit word load `BPF_LD+BPF_W+BPF_ABS` from `struct seccomp_data`
at byte offset `off`, little-endian: the low word of a 64-bit field sits
at its base offset, the high word 4 bytes later.  Loads outside the
structure fault (`none`); the kernel rejects such a program at install
time, and `ps_seccomp_filter` never issues one. -/
def loadWord (d : SeccompData) (off : Nat) : Option Nat :=
  if off = 0 then some (d.nr % 2 ^ 32)
  else if off = 4 then some (d.arch % 2 ^ 32)
  else if off = 8 then some (d.ip % 2 ^ 32)
  else if off = 12 then some (d.ip / 2 ^ 32 % 2 ^ 32)
  else if 16 ≤ off ∧ off < 64 then
    if (off - 16) % 8 = 0 then some (d.args ((off - 16) / 8) % 2 ^ 32)
    else if (off - 16) % 8 = 4 then some (d.args ((off - 16) / 8) / 2 ^ 32 % 2 ^ 32)
    else none
  else none

/-- One-accumulator classic-BPF evaluation of the instructions remaining
in `l`, restricted to the instruction forms `ps_seccomp_filter` uses
(absolute word load, jump-if-equal against a constant, return constant).
Classic-BPF jump offsets are unsigned, so a jump with offset `j` lands
`j` instructions past the next one: `List.drop j` of the tail.  `fuel`
bounds the recursion; every step consumes at least one remaining
instruction, so any `fuel ≥ l.length` computes the machine's answer. -/
def bpfExec (d : SeccompData) : Nat → List sock_filter → Nat → Option Nat
  | _, [], _ => none
  | 0, _ :: _, _ => none
  | fuel + 1, i :: rest, acc =>
    if i.code = BPF_LD + BPF_W + BPF_ABS then
      match loadWord d i.k with
      | some v => bpfExec d fuel rest v
      | none => none
    else if i.code = BPF_JMP + BPF_JEQ + BPF_K then
      if acc = i.k then bpfExec d fuel (rest.drop i.jt) acc
      else bpfExec d fuel (rest.drop i.jf) acc
    else if i.code = BPF_RET + BPF_K then
      some i.k
    else none

/-- Evaluation of an instruction suffix with enough fuel. -/
def bpfEval (d : SeccompData) (l : List sock_filter) (acc : Nat) : Option Nat :=
  bpfExec d (l.length + 1) l acc

/-- Running `ps_seccomp_filter` on a trapped syscall, as the kernel does:
from the first instruction, accumulator initially zero. -/
def seccompRun (d : SeccompData) : Option Nat :=
  bpfEval d ps_seccomp_filter 0

/-! ## The compile-time allow-list table

One element per `SECCOMP_ALLOW` / `SECCOMP_ALLOW_ARG` line of
`ps_seccomp_filter` (privsep-linux.c:202-291), in source order; this is
the data the spec calls the fixed compile-time table. -/

inductive AllowEntry where
  | uncond (nr : Nat)
  | arg (nr : Nat) (idx : Fin 6) (val : Nat)
deriving DecidableEq

/-- The syscall identifier of a table entry. -/
def entryNr : AllowEntry → Nat
  | .uncond nr => nr
  | .arg nr _ _ => nr

/-- The rule sequence a table entry expands to. -/
def entryProg : AllowEntry → List sock_filter
  | .uncond nr => SECCOMP_ALLOW nr
  | .arg nr i v => SECCOMP_ALLOW_ARG nr i.val v

/-- The rule sequence of a whole table. -/
def tableProg : List AllowEntry → List sock_filter
  | [] => []
  | e :: t => entryProg e ++ tableProg t

def allowTable : List AllowEntry :=
  [.uncond NR_accept,
   .uncond NR_brk,
   .uncond NR_clock_gettime,
   .uncond NR_close,
   .uncond NR_exit_group,
   .uncond NR_fcntl,
   .uncond NR_fstat,
   .uncond NR_gettimeofday,
   .uncond NR_getpid,
   .arg NR_ioctl 1 SIOCGIFFLAGS,
   .arg NR_ioctl 1 SIOCGIFHWADDR,
   .arg NR_ioctl 1 SIOCGIFINDEX,
   .arg NR_ioctl 1 SIOCGIFMTU,
   .arg NR_ioctl 1 SIOCGIFVLAN,
   .uncond NR_mmap,
   .uncond NR_munmap,
   .uncond NR_ppoll,
   .uncond NR_read,
   .uncond NR_readv,
   .uncond NR_recvfrom,
   .uncond NR_recvmsg,
   .uncond NR_rt_sigreturn,
   .uncond NR_sendmsg,
   .uncond NR_sendto,
   .uncond NR_shutdown,
   .uncond NR_wait4,
   .uncond NR_write,
   .uncond NR_writev,
   .uncond NR_uname]

/-- The first four instructions of `ps_seccomp_filter`: load the
architecture tag, compare it with the build architecture (deny on
mismatch), then load the syscall number. -/
def seccompPrelude : List sock_filter :=
  [BPF_STMT (BPF_LD + BPF_W + BPF_ABS) seccomp_data_arch,
   BPF_JUMP (BPF_JMP + BPF_JEQ + BPF_K) SECCOMP_AUDIT_ARCH 1 0,
   BPF_STMT (BPF_RET + BPF_K) SECCOMP_FILTER_FAIL,
   BPF_STMT (BPF_LD + BPF_W + BPF_ABS) seccomp_data_nr]

/-- Does a trapped syscall match a table entry?  An unconditional entry
matches on the syscall number; an argument-constrained entry additionally
requires both 32-bit halves of the argument register to equal the
corresponding halves of the required value. -/
def entryMatches (d : SeccompData) : AllowEntry → Bool
  | .uncond nr => d.nr % 2 ^ 32 == nr
  | .arg nr i v =>
      d.nr % 2 ^ 32 == nr
        && d.args i.val % 2 ^ 32 == v % 2 ^ 32
        && d.args i.val / 2 ^ 32 % 2 ^ 32 == v / 2 ^ 32 % 2 ^ 32

/-- `ps_seccomp_prog` (privsep-linux.c:297-300): the program descriptor
handed to the install prctl — the whole literal array with its length. -/
structure sock_fprog where
  len : Nat
  filter : List sock_filter

def ps_seccomp_prog : sock_fprog :=
  ⟨ps_seccomp_filter.length, ps_seccomp_filter⟩

/-! ## Errno values (asm-generic/errno-base.h, asm-generic/errno.h) -/

def EINVAL : Nat := 22
def ENOSYS : Nat := 38
def ENOTSUP : Nat := 95

/-! ## The privileged relay -/

/-- Opaque stand-in for `struct msghdr *`: the relay forwards the message
without inspecting it. -/
abbrev Msg : Type := Nat

/-- Kernel interactions of the privileged relay, recorded in order. -/
inductive SysEvent where
  | openSock (protocol : Int) (fd : Nat)
  | sendMsg (fd : Nat) (msg : Msg)
  | recvMsg (fd : Nat)
  | closeFd (fd : Nat)
deriving DecidableEq

/-- Outcomes of the kernel calls `ps_root_dosendnetlink` makes:
`if_linksocket` (`none` = failure, `some s` = the new socket), whether
`sendmsg` on that socket succeeds, and the value `if_getnetlink` returns
(negative on receive failure). -/
structure RelayEnv where
  linksocket : Int → Option Nat
  sendmsgOk : Nat → Msg → Bool
  getnetlink : Nat → Int

/-- `ps_root_dosendnetlink` (privsep-linux.c:50-74): open a netlink
socket for `protocol`, returning -1 at once if that fails; send the
message, jumping to `out` with retval -1 on failure; otherwise read the
kernel's reply into retval.  The `out:` label closes the socket on both
of the latter paths before returning. -/
def ps_root_dosendnetlink (env : RelayEnv) (protocol : Int) (msg : Msg) :
    Int × List SysEvent :=
  match env.linksocket protocol with
  | none => (-1, [])
  | some s =>
    if env.sendmsgOk s msg then
      (env.getnetlink s,
        [.openSock protocol s, .sendMsg s msg, .recvMsg s, .closeFd s])
    else
      (-1, [.openSock protocol s, .sendMsg s msg, .closeFd s])

/-- Modelled from the spec: `privsep.h` (not in this tree) defines the
request envelope `struct ps_msghdr` with a command tag `ps_cmd` and a
64-bit flags field `ps_flags`, and the command constant `PS_ROUTE`.  The
numeric tag value is immaterial: dispatch compares tags for equality. -/
structure ps_msghdr where
  ps_cmd : Nat
  ps_flags : Nat

def PS_ROUTE : Nat := 1

/-- The C cast `(int)x` for a 64-bit unsigned `x`: truncate to the low 32
bits and reinterpret as a signed 32-bit int. -/
def toInt32 (n : Nat) : Int :=
  if n % 2 ^ 32 < 2 ^ 31 then (n % 2 ^ 32 : Int) else (n % 2 ^ 32 : Int) - 2 ^ 32

/-- `ps_root_os` (privsep-linux.c:76-88): dispatch on the command tag.
`PS_ROUTE` relays the message via `ps_root_dosendnetlink`, with
`(int)psm->ps_flags` as the netlink protocol; any other tag sets
`errno = ENOTSUP` and returns -1 without touching the kernel.  The middle
component is the errno this function itself sets (`none` = untouched);
the last is the kernel operations performed. -/
def ps_root_os (env : RelayEnv) (psm : ps_msghdr) (msg : Msg) :
    (Int × Option Nat) × List SysEvent :=
  if psm.ps_cmd = PS_ROUTE then
    let r := ps_root_dosendnetlink env (toInt32 psm.ps_flags) msg
    ((r.1, none), r.2)
  else
    ((-1, some ENOTSUP), [])

/-! ## The unprivileged side of the relay -/

/-- Worker-side wire events: a serialized request went out to the relay;
the blocking read of the relay's response completed. -/
inductive WireEvent where
  | sent (cmd : Nat) (flags : Nat) (msg : Msg)
  | gotResponse
deriving DecidableEq

/-- Modelled from the spec: outcomes of the transport calls
`ps_root_sendnetlink` makes — whether `ps_sendmsg` succeeds, and the
relay's response that `ps_root_readerror` will read (`error e` = the
relay's errno, `ok n` = success with `n` returned bytes). -/
structure WorkerEnv where
  sendOk : Bool
  response : Except Nat Nat

/-- Modelled from the spec: `ps_sendmsg` (privsep.c, not in this tree)
serializes a request envelope {command, flags, payload} onto the relay
channel, returning -1 on send failure. -/
def ps_sendmsg (env : WorkerEnv) (cmd flags : Nat) (msg : Msg) :
    Int × List WireEvent :=
  if env.sendOk then (0, [.sent cmd flags msg]) else (-1, [])

/-- Modelled from the spec: `ps_root_readerror` (privsep.c, not in this
tree) blocks until the relay's serialized response arrives and translates
it: a success carries the returned byte count; a failure surfaces the
relay's error code via errno and returns -1. -/
def ps_root_readerror (env : WorkerEnv) : (Int × Option Nat) × List WireEvent :=
  match env.response with
  | .ok n => ((Int.ofNat n, none), [.gotResponse])
  | .error e => ((-1, some e), [.gotResponse])

/-- The C cast `(unsigned long)x` for a signed int `x` on LP64: reduce
modulo 2^64. -/
def castUInt64 (i : Int) : Nat := (i % 2 ^ 64).toNat

/-- `ps_root_sendnetlink` (privsep-linux.c:90-98): send a `PS_ROUTE`
request whose flags value carries the protocol; on send failure return -1
at once, otherwise block for the relay's response via
`ps_root_readerror` and return its translation. -/
def ps_root_sendnetlink (env : WorkerEnv) (protocol : Int) (msg : Msg) :
    (Int × Option Nat) × List WireEvent :=
  let s := ps_sendmsg env PS_ROUTE (castUInt64 protocol) msg
  if s.1 = -1 then ((-1, none), s.2)
  else
    let r := ps_root_readerror env
    ((r.1.1, r.1.2), s.2 ++ r.2)

/-! ## The sandbox installer -/

/-- The prctl operations `ps_seccomp_enter` can perform. -/
inductive PrctlOp where
  | setNoNewPrivs
  | setSeccompFilter
deriving DecidableEq

/-- Outcomes of the two prctl calls: `none` is success, `some e` failure
with errno `e`. -/
structure PrctlEnv where
  noNewPrivs : Option Nat
  setFilter : Option Nat

/-- `ps_seccomp_enter` (privsep-linux.c:302-314): disable new privileges
with `PR_SET_NO_NEW_PRIVS`, then install `ps_seccomp_prog` with
`PR_SET_SECCOMP`; `||` short-circuits, so the second prctl runs only if
the first succeeded.  On failure an `EINVAL` errno is rewritten to
`ENOSYS` and -1 returned; on success 0.  The middle component is the
resulting errno (`none` = untouched); the last is the prctl calls made,
in order. -/
def ps_seccomp_enter (env : PrctlEnv) : (Int × Option Nat) × List PrctlOp :=
  match env.noNewPrivs with
  | some e =>
    ((-1, some (if e = EINVAL then ENOSYS else e)), [.setNoNewPrivs])
  | none =>
    match env.setFilter with
    | some e =>
      ((-1, some (if e = EINVAL then ENOSYS else e)),
        [.setNoNewPrivs, .setSeccompFilter])
    | none => ((0, none), [.setNoNewPrivs, .setSeccompFilter])

/-- Is an event the opening of a routing socket? -/
def isOpenEv : SysEvent → Bool
  | .openSock _ _ => true
  | _ => false

/-- Is an event the closing of a file descriptor? -/
def isCloseEv : SysEvent → Bool
  | .closeFd _ => true
  | _ => false

/-! ## Evaluator step lemmas -/

/-- Any two fuels at least the remaining program length give the same
result: each step consumes at least one remaining instruction. -/
theorem bpfExec_fuel (d : SeccompData) :
    ∀ f1 f2 : Nat, ∀ l : List sock_filter, ∀ acc : Nat,
      l.length ≤ f1 → l.length ≤ f2 →
      bpfExec d f1 l acc = bpfExec d f2 l acc := by
  intro f1
  induction f1 with
  | zero =>
    intro f2 l acc h1 _
    have hl : l = [] := List.eq_nil_of_length_eq_zero (Nat.le_zero.mp h1)
    subst hl
    cases f2 <;> simp [bpfExec]
  | succ f ih =>
    intro f2 l acc h1 h2
    cases l with
    | nil => cases f2 <;> simp [bpfExec]
    | cons i rest =>
      cases f2 with
      | zero => simp at h2
      | succ f2' =>
        have hr : rest.length ≤ f := by
          simpa using Nat.le_of_succ_le_succ (by simpa using h1)
        have hr2 : rest.length ≤ f2' := by
          simpa using Nat.le_of_succ_le_succ (by simpa using h2)
        simp only [bpfExec]
        by_cases hld : i.code = BPF_LD + BPF_W + BPF_ABS
        · rw [if_pos hld, if_pos hld]
          cases hv : loadWord d i.k with
          | none => rfl
          | some v => exact ih f2' rest v hr hr2
        · rw [if_neg hld, if_neg hld]
          by_cases hj : i.code = BPF_JMP + BPF_JEQ + BPF_K
          · rw [if_pos hj, if_pos hj]
            by_cases ha : acc = i.k
            · rw [if_pos ha, if_pos ha]
              exact ih f2' (rest.drop i.jt) acc
                (le_trans (by simp [List.length_drop]) hr)
                (le_trans (by simp [List.length_drop]) hr2)
            · rw [if_neg ha, if_neg ha]
              exact ih f2' (rest.drop i.jf) acc
                (le_trans (by simp [List.length_drop]) hr)
                (le_trans (by simp [List.length_drop]) hr2)
          · rw [if_neg hj, if_neg hj]

theorem bpfEval_nil (d : SeccompData) (acc : Nat) : bpfEval d [] acc = none := rfl

theorem bpfEval_ret (d : SeccompData) (k : Nat) (rest : List sock_filter) (acc : Nat) :
    bpfEval d (BPF_STMT (BPF_RET + BPF_K) k :: rest) acc = some k := rfl

theorem bpfEval_ld (d : SeccompData) (off : Nat) (rest : List sock_filter)
    (acc v : Nat) (hv : loadWord d off = some v) :
    bpfEval d (BPF_STMT (BPF_LD + BPF_W + BPF_ABS) off :: rest) acc
      = bpfEval d rest v := by
  simp only [bpfEval, List.length_cons, bpfExec, BPF_STMT]
  rw [if_pos trivial, hv]

theorem bpfEval_jeq_t (d : SeccompData) (k jt jf : Nat) (rest : List sock_filter)
    (acc : Nat) (h : acc = k) :
    bpfEval d (BPF_JUMP (BPF_JMP + BPF_JEQ + BPF_K) k jt jf :: rest) acc
      = bpfEval d (rest.drop jt) acc := by
  simp only [bpfEval, List.length_cons, bpfExec, BPF_JUMP]
  rw [if_pos trivial, if_pos h]
  exact bpfExec_fuel d _ _ _ _ (by rw [List.length_drop]; omega) (Nat.le_succ _)

theorem bpfEval_jeq_f (d : SeccompData) (k jt jf : Nat) (rest : List sock_filter)
    (acc : Nat) (h : acc ≠ k) :
    bpfEval d (BPF_JUMP (BPF_JMP + BPF_JEQ + BPF_K) k jt jf :: rest) acc
      = bpfEval d (rest.drop jf) acc := by
  simp only [bpfEval, List.length_cons, bpfExec, BPF_JUMP]
  rw [if_pos trivial, if_neg h]
  exact bpfExec_fuel d _ _ _ _ (by rw [List.length_drop]; omega) (Nat.le_succ _)

/-! ## Loads from seccomp_data at the offsets the filter uses -/

theorem loadWord_nr (d : SeccompData) :
    loadWord d seccomp_data_nr = some (d.nr % 2 ^ 32) := rfl

theorem loadWord_arch (d : SeccompData) :
    loadWord d seccomp_data_arch = some (d.arch % 2 ^ 32) := rfl

theorem loadWord_argLo (d : SeccompData) (i : Nat) (h : i < 6) :
    loadWord d (seccomp_data_args i + SECCOMP_ARG_LO)
      = some (d.args i % 2 ^ 32) := by
  simp only [loadWord, seccomp_data_args, SECCOMP_ARG_LO, Nat.add_zero]
  rw [if_neg (by omega), if_neg (by omega), if_neg (by omega), if_neg (by omega),
    if_pos (by omega), if_pos (by omega)]
  have hi : (16 + 8 * i - 16) / 8 = i := by omega
  rw [hi]

theorem loadWord_argHi (d : SeccompData) (i : Nat) (h : i < 6) :
    loadWord d (seccomp_data_args i + SECCOMP_ARG_HI)
      = some (d.args i / 2 ^ 32 % 2 ^ 32) := by
  simp only [loadWord, seccomp_data_args, SECCOMP_ARG_HI]
  rw [if_neg (by omega), if_neg (by omega), if_neg (by omega), if_neg (by omega),
    if_pos (by omega), if_neg (by omega), if_pos (by omega)]
  have hi : (16 + 8 * i + 4 - 16) / 8 = i := by omega
  rw [hi]

/-! ## Behaviour of the two allow-rule macros inside a larger program -/

theorem eval_allow_hit (d : SeccompData) (nr : Nat) (rest : List sock_filter)
    (acc : Nat) (h : acc = nr) :
    bpfEval d (SECCOMP_ALLOW nr ++ rest) acc = some SECCOMP_RET_ALLOW := by
  simp only [SECCOMP_ALLOW, List.cons_append]
  rw [bpfEval_jeq_t d nr 0 1 _ acc h]
  simp only [List.drop_zero]
  exact bpfEval_ret d SECCOMP_RET_ALLOW rest acc

theorem eval_allow_skip (d : SeccompData) (nr : Nat) (rest : List sock_filter)
    (acc : Nat) (h : acc ≠ nr) :
    bpfEval d (SECCOMP_ALLOW nr ++ rest) acc = bpfEval d rest acc := by
  simp only [SECCOMP_ALLOW, List.cons_append]
  rw [bpfEval_jeq_f d nr 0 1 _ acc h]
  simp only [List.drop_succ_cons, List.drop_zero, List.nil_append]

theorem eval_allowArg_skip_nr (d : SeccompData) (nr arg val : Nat)
    (rest : List sock_filter) (acc : Nat) (h : acc ≠ nr) :
    bpfEval d (SECCOMP_ALLOW_ARG nr arg val ++ rest) acc = bpfEval d rest acc := by
  simp only [SECCOMP_ALLOW_ARG, List.cons_append]
  rw [bpfEval_jeq_f d nr 0 6 _ acc h]
  simp only [List.drop_succ_cons, List.drop_zero, List.nil_append]

theorem eval_allowArg_hit (d : SeccompData) (nr arg val : Nat)
    (rest : List sock_filter) (harg : arg < 6)
    (hnr : d.nr % 2 ^ 32 = nr)
    (hlo : d.args arg % 2 ^ 32 = val % 2 ^ 32)
    (hhi : d.args arg / 2 ^ 32 % 2 ^ 32 = val / 2 ^ 32 % 2 ^ 32) :
    bpfEval d (SECCOMP_ALLOW_ARG nr arg val ++ rest) (d.nr % 2 ^ 32)
      = some SECCOMP_RET_ALLOW := by
  simp only [SECCOMP_ALLOW_ARG, List.cons_append]
  rw [bpfEval_jeq_t d nr 0 6 _ _ hnr]
  simp only [List.drop_zero]
  rw [bpfEval_ld d _ _ _ _ (loadWord_argLo d arg harg)]
  rw [bpfEval_jeq_t d _ 0 3 _ _ hlo]
  simp only [List.drop_zero]
  rw [bpfEval_ld d _ _ _ _ (loadWord_argHi d arg harg)]
  rw [bpfEval_jeq_t d _ 0 1 _ _ hhi]
  simp only [List.drop_zero]
  exact bpfEval_ret d SECCOMP_RET_ALLOW _ _

theorem eval_allowArg_miss_lo (d : SeccompData) (nr arg val : Nat)
    (rest : List sock_filter) (harg : arg < 6)
    (hnr : d.nr % 2 ^ 32 = nr)
    (hlo : d.args arg % 2 ^ 32 ≠ val % 2 ^ 32) :
    bpfEval d (SECCOMP_ALLOW_ARG nr arg val ++ rest) (d.nr % 2 ^ 32)
      = bpfEval d rest (d.nr % 2 ^ 32) := by
  simp only [SECCOMP_ALLOW_ARG, List.cons_append]
  rw [bpfEval_jeq_t d nr 0 6 _ _ hnr]
  simp only [List.drop_zero]
  rw [bpfEval_ld d _ _ _ _ (loadWord_argLo d arg harg)]
  rw [bpfEval_jeq_f d _ 0 3 _ _ hlo]
  simp only [List.drop_succ_cons, List.drop_zero, List.nil_append]
  rw [bpfEval_ld d _ _ _ _ (loadWord_nr d)]

theorem eval_allowArg_miss_hi (d : SeccompData) (nr arg val : Nat)
    (rest : List sock_filter) (harg : arg < 6)
    (hnr : d.nr % 2 ^ 32 = nr)
    (hlo : d.args arg % 2 ^ 32 = val % 2 ^ 32)
    (hhi : d.args arg / 2 ^ 32 % 2 ^ 32 ≠ val / 2 ^ 32 % 2 ^ 32) :
    bpfEval d (SECCOMP_ALLOW_ARG nr arg val ++ rest) (d.nr % 2 ^ 32)
      = bpfEval d rest (d.nr % 2 ^ 32) := by
  simp only [SECCOMP_ALLOW_ARG, List.cons_append]
  rw [bpfEval_jeq_t d nr 0 6 _ _ hnr]
  simp only [List.drop_zero]
  rw [bpfEval_ld d _ _ _ _ (loadWord_argLo d arg harg)]
  rw [bpfEval_jeq_t d _ 0 3 _ _ hlo]
  simp only [List.drop_zero]
  rw [bpfEval_ld d _ _ _ _ (loadWord_argHi d arg harg)]
  rw [bpfEval_jeq_f d _ 0 1 _ _ hhi]
  simp only [List.drop_succ_cons, List.drop_zero, List.nil_append]
  rw [bpfEval_ld d _ _ _ _ (loadWord_nr d)]

/-- The literal instruction array is the prelude, the expansion of the
table, and the terminal default-deny return. -/
theorem ps_seccomp_filter_eq :
    ps_seccomp_filter
      = seccompPrelude
        ++ (tableProg allowTable
            ++ [BPF_STMT (BPF_RET + BPF_K) SECCOMP_FILTER_FAIL]) := by
  decide

/-- Running the expansion of a table followed by `rest`, with the syscall
number in the accumulator: if some entry matches the result is allow,
otherwise execution falls through to `rest` with the syscall number still
in the accumulator. -/
theorem eval_tableProg (d : SeccompData) (t : List AllowEntry)
    (rest : List sock_filter) :
    bpfEval d (tableProg t ++ rest) (d.nr % 2 ^ 32)
      = if t.any (entryMatches d) then some SECCOMP_RET_ALLOW
        else bpfEval d rest (d.nr % 2 ^ 32) := by
  induction t with
  | nil => simp [tableProg]
  | cons e t ih =>
    rw [show tableProg (e :: t) = entryProg e ++ tableProg t from rfl,
      List.append_assoc]
    cases e with
    | uncond nr =>
      by_cases h : d.nr % 2 ^ 32 = nr
      · have hb : entryMatches d (AllowEntry.uncond nr) = true :=
          beq_iff_eq.mpr h
        rw [show entryProg (.uncond nr) = SECCOMP_ALLOW nr from rfl,
          eval_allow_hit d nr _ _ h, List.any_cons, hb, Bool.true_or, if_pos rfl]
      · have hb : entryMatches d (AllowEntry.uncond nr) = false :=
          beq_eq_false_iff_ne.mpr h
        rw [show entryProg (.uncond nr) = SECCOMP_ALLOW nr from rfl,
          eval_allow_skip d nr _ _ h, ih, List.any_cons, hb, Bool.false_or]
    | arg nr i v =>
      rw [show entryProg (.arg nr i v) = SECCOMP_ALLOW_ARG nr i.val v from rfl]
      by_cases h : d.nr % 2 ^ 32 = nr
      · by_cases hlo : d.args i.val % 2 ^ 32 = v % 2 ^ 32
        · by_cases hhi : d.args i.val / 2 ^ 32 % 2 ^ 32 = v / 2 ^ 32 % 2 ^ 32
          · have hb : entryMatches d (AllowEntry.arg nr i v) = true :=
              Bool.and_eq_true_iff.mpr
                ⟨Bool.and_eq_true_iff.mpr ⟨beq_iff_eq.mpr h, beq_iff_eq.mpr hlo⟩,
                 beq_iff_eq.mpr hhi⟩
            rw [eval_allowArg_hit d nr i.val v _ i.isLt h hlo hhi,
              List.any_cons, hb, Bool.true_or, if_pos rfl]
          · have hb : entryMatches d (AllowEntry.arg nr i v) = false :=
              Bool.eq_false_iff.mpr (fun hc =>
                hhi (beq_iff_eq.mp (Bool.and_eq_true_iff.mp hc).2))
            rw [eval_allowArg_miss_hi d nr i.val v _ i.isLt h hlo hhi, ih,
              List.any_cons, hb, Bool.false_or]
        · have hb : entryMatches d (AllowEntry.arg nr i v) = false :=
            Bool.eq_false_iff.mpr (fun hc =>
              hlo (beq_iff_eq.mp (Bool.and_eq_true_iff.mp (Bool.and_eq_true_iff.mp hc).1).2))
          rw [eval_allowArg_miss_lo d nr i.val v _ i.isLt h hlo, ih,
            List.any_cons, hb, Bool.false_or]
      · have hb : entryMatches d (AllowEntry.arg nr i v) = false :=
          Bool.eq_false_iff.mpr (fun hc =>
            h (beq_iff_eq.mp (Bool.and_eq_true_iff.mp (Bool.and_eq_true_iff.mp hc).1).1))
        rw [eval_allowArg_skip_nr d nr i.val v _ _ h, ih,
          List.any_cons, hb, Bool.false_or]

/-! ## End-to-end behaviour of ps_seccomp_filter -/

/-- Architecture mismatch: the second instruction routes straight to the
default-deny return, whatever the syscall number and arguments are. -/
theorem seccompRun_arch_mismatch (d : SeccompData)
    (h : d.arch % 2 ^ 32 ≠ SECCOMP_AUDIT_ARCH) :
    seccompRun d = some SECCOMP_FILTER_FAIL := by
  unfold seccompRun
  rw [ps_seccomp_filter_eq]
  simp only [seccompPrelude, List.cons_append, List.nil_append]
  rw [bpfEval_ld d _ _ _ _ (loadWord_arch d), bpfEval_jeq_f d _ 1 0 _ _ h]
  simp only [List.drop_zero]
  exact bpfEval_ret d SECCOMP_FILTER_FAIL _ _

/-- Architecture match: the filter's verdict is allow exactly when some
table entry matches, and the default-deny kill value otherwise. -/
theorem seccompRun_spec (d : SeccompData)
    (h : d.arch % 2 ^ 32 = SECCOMP_AUDIT_ARCH) :
    seccompRun d
      = if allowTable.any (entryMatches d) then some SECCOMP_RET_ALLOW
        else some SECCOMP_FILTER_FAIL := by
  unfold seccompRun
  rw [ps_seccomp_filter_eq]
  simp only [seccompPrelude, List.cons_append, List.nil_append]
  rw [bpfEval_ld d _ _ _ _ (loadWord_arch d), bpfEval_jeq_t d _ 1 0 _ _ h]
  simp only [List.drop_succ_cons, List.drop_zero, List.nil_append]
  rw [bpfEval_ld d _ _ _ _ (loadWord_nr d), eval_tableProg]
  split
  · rfl
  · exact bpfEval_ret d SECCOMP_FILTER_FAIL _ _

/-! ## Arithmetic helpers: a 64-bit value and its 32-bit halves -/

theorem mod64_eq_iff_halves (a v : Nat) :
    a % 2 ^ 64 = v % 2 ^ 64
      ↔ a % 2 ^ 32 = v % 2 ^ 32 ∧ a / 2 ^ 32 % 2 ^ 32 = v / 2 ^ 32 % 2 ^ 32 := by
  have hsplit : (2 : Nat) ^ 64 = 2 ^ 32 * 2 ^ 32 := by norm_num
  constructor
  · intro h
    constructor
    · have h1 := congrArg (· % 2 ^ 32) h
      simp only at h1
      rwa [Nat.mod_mod_of_dvd a (by norm_num : (2 : Nat) ^ 32 ∣ 2 ^ 64),
        Nat.mod_mod_of_dvd v (by norm_num : (2 : Nat) ^ 32 ∣ 2 ^ 64)] at h1
    · have h2 := congrArg (· / 2 ^ 32) h
      simp only at h2
      rwa [hsplit, Nat.mod_mul_right_div_self, Nat.mod_mul_right_div_self] at h2
  · intro h
    rw [hsplit, Nat.mod_mul, Nat.mod_mul, h.1, h.2]

theorem halves_of_mod64_ne (a v : Nat) (h : a % 2 ^ 64 ≠ v % 2 ^ 64) :
    a % 2 ^ 32 ≠ v % 2 ^ 32
      ∨ (a % 2 ^ 32 = v % 2 ^ 32 ∧ a / 2 ^ 32 % 2 ^ 32 ≠ v / 2 ^ 32 % 2 ^ 32) := by
  by_cases hlo : a % 2 ^ 32 = v % 2 ^ 32
  · exact Or.inr ⟨hlo, fun hhi => h ((mod64_eq_iff_halves a v).mpr ⟨hlo, hhi⟩)⟩
  · exact Or.inl hlo

/-! ## Table-matching helpers -/

theorem entryMatches_false_of_nr (d : SeccompData) (e : AllowEntry)
    (h : entryNr e ≠ d.nr % 2 ^ 32) : entryMatches d e = false := by
  cases e with
  | uncond nr => exact beq_eq_false_iff_ne.mpr (Ne.symm h)
  | arg nr i v =>
    exact Bool.eq_false_iff.mpr (fun hc =>
      (Ne.symm h)
        (beq_iff_eq.mp (Bool.and_eq_true_iff.mp (Bool.and_eq_true_iff.mp hc).1).1))

theorem table_any_false_of_nr (d : SeccompData) (t : List AllowEntry)
    (h : ∀ e ∈ t, entryNr e ≠ d.nr % 2 ^ 32) :
    t.any (entryMatches d) = false := by
  rw [List.any_eq_false]
  intro e he
  rw [entryMatches_false_of_nr d e (h e he)]
  exact Bool.false_ne_true

/-! ## Claim theorems -/

/-- C1: In `ps_seccomp_filter`, the architecture-identity check is the
first evaluated rule — the first instruction loads the architecture tag
and the second compares it, routing to a default-deny return (the third
instruction) on mismatch and falling through to allow-list evaluation
only on match; the default-deny return is the final instruction of the
program, so no allow-list entry appears after it; and on an architecture
mismatch the whole program returns the default-deny value, so every
allow-list entry is reachable only through the initial architecture
check. -/
theorem C1_arch_first_deny_last :
    (ps_seccomp_filter.head?
        = some (BPF_STMT (BPF_LD + BPF_W + BPF_ABS) seccomp_data_arch)
      ∧ ps_seccomp_filter[1]?
        = some (BPF_JUMP (BPF_JMP + BPF_JEQ + BPF_K) SECCOMP_AUDIT_ARCH 1 0)
      ∧ ps_seccomp_filter[2]?
        = some (BPF_STMT (BPF_RET + BPF_K) SECCOMP_FILTER_FAIL))
    ∧ ps_seccomp_filter.getLast?
        = some (BPF_STMT (BPF_RET + BPF_K) SECCOMP_FILTER_FAIL)
    ∧ (∀ d : SeccompData, d.arch % 2 ^ 32 ≠ SECCOMP_AUDIT_ARCH →
        seccompRun d = some SECCOMP_FILTER_FAIL)
    ∧ (∀ d : SeccompData, d.arch % 2 ^ 32 = SECCOMP_AUDIT_ARCH →
        seccompRun d
          = if allowTable.any (entryMatches d) then some SECCOMP_RET_ALLOW
            else some SECCOMP_FILTER_FAIL) := by
  refine ⟨⟨by decide, by decide, by decide⟩, by decide, ?_, ?_⟩
  · exact fun d h => seccompRun_arch_mismatch d h
  · exact fun d h => seccompRun_spec d h

/-- Witness for C1: a trapped syscall whose architecture tag is not
x86_64 is denied even though its syscall number is on the allow-list. -/
theorem C1_arch_first_deny_last_witness :
    (SeccompData.mk NR_read 40000003 0 (fun _ => 0)).arch % 2 ^ 32
        ≠ SECCOMP_AUDIT_ARCH
      ∧ seccompRun (SeccompData.mk NR_read 40000003 0 (fun _ => 0))
        = some SECCOMP_FILTER_FAIL :=
  ⟨by decide,
   C1_arch_first_deny_last.2.2.1
     (SeccompData.mk NR_read 40000003 0 (fun _ => 0)) (by decide)⟩

/-- C6: The terminal default-deny action of `ps_seccomp_filter` (its last
instruction) and the action on an architecture mismatch (its third
instruction) both return `SECCOMP_FILTER_FAIL`, which is the kill value
`SECCOMP_RET_KILL` and not the errno-returning action class; an
architecture mismatch yields the kill value; and for a matching
architecture, any syscall matched by no allow-table entry yields the
kill value — the call is never turned into an error return to the
caller. -/
theorem C6_default_deny_is_kill :
    SECCOMP_FILTER_FAIL = SECCOMP_RET_KILL
    ∧ SECCOMP_RET_KILL ≠ SECCOMP_RET_ERRNO
    ∧ ps_seccomp_filter.getLast?
        = some (BPF_STMT (BPF_RET + BPF_K) SECCOMP_RET_KILL)
    ∧ ps_seccomp_filter[2]?
        = some (BPF_STMT (BPF_RET + BPF_K) SECCOMP_RET_KILL)
    ∧ (∀ d : SeccompData, d.arch % 2 ^ 32 ≠ SECCOMP_AUDIT_ARCH →
        seccompRun d = some SECCOMP_RET_KILL)
    ∧ (∀ d : SeccompData, d.arch % 2 ^ 32 = SECCOMP_AUDIT_ARCH →
        allowTable.any (entryMatches d) = false →
        seccompRun d = some SECCOMP_RET_KILL) := by
  refine ⟨rfl, by decide, by decide, by decide, ?_, ?_⟩
  · exact fun d h => seccompRun_arch_mismatch d h
  · intro d harch hany
    rw [seccompRun_spec d harch, hany]
    rfl

/-- Witness for C6: syscall 2 (`open`) is on no allow-list entry; under a
matching architecture the filter kills the process for it. -/
theorem C6_default_deny_is_kill_witness :
    (SeccompData.mk 2 SECCOMP_AUDIT_ARCH 0 (fun _ => 0)).arch % 2 ^ 32
        = SECCOMP_AUDIT_ARCH
      ∧ seccompRun (SeccompData.mk 2 SECCOMP_AUDIT_ARCH 0 (fun _ => 0))
        = some SECCOMP_RET_KILL :=
  ⟨by decide,
   C6_default_deny_is_kill.2.2.2.2.2
     (SeccompData.mk 2 SECCOMP_AUDIT_ARCH 0 (fun _ => 0)) (by decide)
     (by decide)⟩

/-- C7: No entry of the compile-time allow-list table carries the
syscall number of `socket`(2) — the call `if_linksocket` needs to open
the kernel routing-notification socket — and consequently a worker under
the installed filter gets killed on any `socket` syscall. -/
theorem C7_socket_excluded :
    (∀ e ∈ allowTable, entryNr e ≠ NR_socket)
    ∧ (∀ d : SeccompData, d.arch % 2 ^ 32 = SECCOMP_AUDIT_ARCH →
        d.nr = NR_socket → seccompRun d = some SECCOMP_FILTER_FAIL) := by
  refine ⟨by decide, ?_⟩
  intro d harch hnr
  rw [seccompRun_spec d harch, table_any_false_of_nr d allowTable ?hne]
  · rfl
  · intro e he
    rw [hnr]
    have : (NR_socket : Nat) % 2 ^ 32 = NR_socket := by decide
    rw [this]
    revert e he
    decide

/-- Witness for C7: the first table entry is not `socket`, and a trapped
`socket` call under the right architecture is killed. -/
theorem C7_socket_excluded_witness :
    entryNr (AllowEntry.uncond NR_accept) ≠ NR_socket
      ∧ seccompRun (SeccompData.mk NR_socket SECCOMP_AUDIT_ARCH 0 (fun _ => 0))
        = some SECCOMP_FILTER_FAIL :=
  ⟨C7_socket_excluded.1 (AllowEntry.uncond NR_accept) (by decide),
   C7_socket_excluded.2
     (SeccompData.mk NR_socket SECCOMP_AUDIT_ARCH 0 (fun _ => 0)) (by decide) rfl⟩

/-- C4: For the argument-constrained allow-list entries (the `ioctl`
rules constrained by the control-request code in argument register 1):
a call whose code equals the required 64-bit value of some table entry —
both 32-bit halves matching, which for `d.args 1 = v` they do — is
allowed by the whole filter; and a call on the same syscall number whose
code differs from the entry's required value (as a 64-bit value, so some
half differs) makes the `SECCOMP_ALLOW_ARG` block fall through to
whatever rule sequence follows it, with the syscall number in the
accumulator, rather than jumping to the default-deny return. -/
theorem C4_ioctl_arg_constrained :
    (∀ (d : SeccompData) (v : Nat),
      AllowEntry.arg NR_ioctl 1 v ∈ allowTable →
      d.arch % 2 ^ 32 = SECCOMP_AUDIT_ARCH →
      d.nr = NR_ioctl →
      d.args 1 = v →
      seccompRun d = some SECCOMP_RET_ALLOW)
    ∧ (∀ (d : SeccompData) (v : Nat) (rest : List sock_filter),
      d.nr % 2 ^ 32 = NR_ioctl →
      d.args 1 % 2 ^ 64 ≠ v % 2 ^ 64 →
      bpfEval d (SECCOMP_ALLOW_ARG NR_ioctl 1 v ++ rest) (d.nr % 2 ^ 32)
        = bpfEval d rest (d.nr % 2 ^ 32)) := by
  constructor
  · intro d v hmem harch hnr harg
    rw [seccompRun_spec d harch]
    have hmatch : entryMatches d (AllowEntry.arg NR_ioctl 1 v) = true := by
      refine Bool.and_eq_true_iff.mpr ⟨Bool.and_eq_true_iff.mpr ⟨?_, ?_⟩, ?_⟩
      · exact beq_iff_eq.mpr (by rw [hnr]; decide)
      · exact beq_iff_eq.mpr (by rw [show ((1 : Fin 6) : Nat) = 1 from rfl, harg])
      · exact beq_iff_eq.mpr (by rw [show ((1 : Fin 6) : Nat) = 1 from rfl, harg])
    have hany : allowTable.any (entryMatches d) = true :=
      List.any_eq_true.mpr ⟨AllowEntry.arg NR_ioctl 1 v, hmem, hmatch⟩
    rw [hany]
    rfl
  · intro d v rest hnr hne
    rcases halves_of_mod64_ne (d.args 1) v hne with hlo | ⟨hlo, hhi⟩
    · exact eval_allowArg_miss_lo d NR_ioctl 1 v rest (by decide) hnr hlo
    · exact eval_allowArg_miss_hi d NR_ioctl 1 v rest (by decide) hnr hlo hhi

/-- Witness for C4: an `ioctl` with code `SIOCGIFMTU` is allowed; with
code `SIOCGIFMTU + 1` the `SIOCGIFMTU` rule block falls through to the
following rules. -/
theorem C4_ioctl_arg_constrained_witness :
    seccompRun (SeccompData.mk NR_ioctl SECCOMP_AUDIT_ARCH 0
        (fun i => if i = 1 then SIOCGIFMTU else 0))
      = some SECCOMP_RET_ALLOW
    ∧ bpfEval (SeccompData.mk NR_ioctl SECCOMP_AUDIT_ARCH 0
          (fun i => if i = 1 then SIOCGIFMTU + 1 else 0))
        (SECCOMP_ALLOW_ARG NR_ioctl 1 SIOCGIFMTU
          ++ [BPF_STMT (BPF_RET + BPF_K) SECCOMP_RET_ALLOW])
        (NR_ioctl % 2 ^ 32)
      = some SECCOMP_RET_ALLOW :=
  ⟨C4_ioctl_arg_constrained.1
      (SeccompData.mk NR_ioctl SECCOMP_AUDIT_ARCH 0
        (fun i => if i = 1 then SIOCGIFMTU else 0))
      SIOCGIFMTU (by decide) (by decide) rfl (by decide),
   by
    rw [show (NR_ioctl : Nat) % 2 ^ 32
        = (SeccompData.mk NR_ioctl SECCOMP_AUDIT_ARCH 0
            (fun i => if i = 1 then SIOCGIFMTU + 1 else 0)).nr % 2 ^ 32 from rfl]
    rw [C4_ioctl_arg_constrained.2
      (SeccompData.mk NR_ioctl SECCOMP_AUDIT_ARCH 0
        (fun i => if i = 1 then SIOCGIFMTU + 1 else 0))
      SIOCGIFMTU [BPF_STMT (BPF_RET + BPF_K) SECCOMP_RET_ALLOW]
      (by decide) (by decide)]
    decide⟩

/-- C9: Every fall-through exit of a `SECCOMP_ALLOW_ARG` block leaves or
restores the syscall number in the BPF accumulator before the next rule
executes.  The macro's final instruction is a reload of the syscall
number; on a syscall-number mismatch the block is skipped with the
accumulator untouched, and on a low- or high-half mismatch control jumps
to that final reload, so in all three cases evaluation continues at the
following rules with the syscall number in the accumulator. -/
theorem C9_allowArg_restores_nr :
    (∀ nr arg val : Nat,
      (SECCOMP_ALLOW_ARG nr arg val).getLast?
        = some (BPF_STMT (BPF_LD + BPF_W + BPF_ABS) seccomp_data_nr))
    ∧ (∀ (d : SeccompData) (nr arg val : Nat) (rest : List sock_filter),
      d.nr % 2 ^ 32 ≠ nr →
      bpfEval d (SECCOMP_ALLOW_ARG nr arg val ++ rest) (d.nr % 2 ^ 32)
        = bpfEval d rest (d.nr % 2 ^ 32))
    ∧ (∀ (d : SeccompData) (nr arg val : Nat) (rest : List sock_filter),
      arg < 6 →
      d.nr % 2 ^ 32 = nr →
      d.args arg % 2 ^ 32 ≠ val % 2 ^ 32 →
      bpfEval d (SECCOMP_ALLOW_ARG nr arg val ++ rest) (d.nr % 2 ^ 32)
        = bpfEval d rest (d.nr % 2 ^ 32))
    ∧ (∀ (d : SeccompData) (nr arg val : Nat) (rest : List sock_filter),
      arg < 6 →
      d.nr % 2 ^ 32 = nr →
      d.args arg % 2 ^ 32 = val % 2 ^ 32 →
      d.args arg / 2 ^ 32 % 2 ^ 32 ≠ val / 2 ^ 32 % 2 ^ 32 →
      bpfEval d (SECCOMP_ALLOW_ARG nr arg val ++ rest) (d.nr % 2 ^ 32)
        = bpfEval d rest (d.nr % 2 ^ 32)) := by
  refine ⟨fun nr arg val => rfl, ?_, ?_, ?_⟩
  · exact fun d nr arg val rest h => eval_allowArg_skip_nr d nr arg val rest _ h
  · exact fun d nr arg val rest harg hnr hlo =>
      eval_allowArg_miss_lo d nr arg val rest harg hnr hlo
  · exact fun d nr arg val rest harg hnr hlo hhi =>
      eval_allowArg_miss_hi d nr arg val rest harg hnr hlo hhi

/-- Witness for C9: with syscall number 7 and an `SECCOMP_ALLOW_ARG 16`
block, the block falls through to a following `SECCOMP_ALLOW 7` rule,
which then matches the restored accumulator and allows. -/
theorem C9_allowArg_restores_nr_witness :
    (SeccompData.mk 7 0 0 (fun _ => 0)).nr % 2 ^ 32 ≠ 16
      ∧ bpfEval (SeccompData.mk 7 0 0 (fun _ => 0))
          (SECCOMP_ALLOW_ARG 16 1 5 ++ SECCOMP_ALLOW 7)
          ((SeccompData.mk 7 0 0 (fun _ => 0)).nr % 2 ^ 32)
        = bpfEval (SeccompData.mk 7 0 0 (fun _ => 0)) (SECCOMP_ALLOW 7)
            ((SeccompData.mk 7 0 0 (fun _ => 0)).nr % 2 ^ 32) :=
  ⟨by decide,
   C9_allowArg_restores_nr.2.1 (SeccompData.mk 7 0 0 (fun _ => 0)) 16 1 5
     (SECCOMP_ALLOW 7) (by decide)⟩

/-- C2: For a `PS_ROUTE` request, once `if_linksocket` yields a socket,
the relay records exactly one socket open and exactly one close, and the
close is the last kernel operation before returning — on the success,
send-failure and receive-failure paths alike (the receive outcome does
not change the trace shape).  If the open itself fails, no socket exists
and no kernel operation is recorded, so repeated failing calls leak no
descriptor. -/
theorem C2_route_socket_lifecycle :
    (∀ (env : RelayEnv) (psm : ps_msghdr) (msg : Msg) (s : Nat),
      psm.ps_cmd = PS_ROUTE →
      env.linksocket (toInt32 psm.ps_flags) = some s →
      (ps_root_os env psm msg).2.countP isOpenEv = 1
        ∧ (ps_root_os env psm msg).2.countP isCloseEv = 1
        ∧ (ps_root_os env psm msg).2.getLast? = some (SysEvent.closeFd s))
    ∧ (∀ (env : RelayEnv) (psm : ps_msghdr) (msg : Msg),
      psm.ps_cmd = PS_ROUTE →
      env.linksocket (toInt32 psm.ps_flags) = none →
      ps_root_os env psm msg = ((-1, none), [])) := by
  constructor
  · intro env psm msg s hcmd hopen
    by_cases hs : env.sendmsgOk s msg
    · simp [ps_root_os, hcmd, ps_root_dosendnetlink, hopen, hs,
        isOpenEv, isCloseEv, List.countP_cons, List.countP_nil]
    · simp [ps_root_os, hcmd, ps_root_dosendnetlink, hopen, hs,
        isOpenEv, isCloseEv, List.countP_cons, List.countP_nil]
  · intro env psm msg hcmd hopen
    simp [ps_root_os, hcmd, ps_root_dosendnetlink, hopen]

/-- Witness for C2: a send failure still closes the one opened socket
last. -/
theorem C2_route_socket_lifecycle_witness :
    (ps_root_os (RelayEnv.mk (fun _ => some 3) (fun _ _ => false) (fun _ => 0))
        (ps_msghdr.mk PS_ROUTE 0) 0).2.countP isOpenEv = 1
      ∧ (ps_root_os (RelayEnv.mk (fun _ => some 3) (fun _ _ => false) (fun _ => 0))
          (ps_msghdr.mk PS_ROUTE 0) 0).2.countP isCloseEv = 1
      ∧ (ps_root_os (RelayEnv.mk (fun _ => some 3) (fun _ _ => false) (fun _ => 0))
          (ps_msghdr.mk PS_ROUTE 0) 0).2.getLast? = some (SysEvent.closeFd 3) :=
  C2_route_socket_lifecycle.1
    (RelayEnv.mk (fun _ => some 3) (fun _ _ => false) (fun _ => 0))
    (ps_msghdr.mk PS_ROUTE 0) 0 3 rfl rfl

/-- C3: A request whose command tag is not `PS_ROUTE` makes `ps_root_os`
return -1 with errno `ENOTSUP` and perform no kernel operation at all —
the event trace is empty: nothing is opened, nothing is sent. -/
theorem C3_unsupported_cmd_enotsup :
    ∀ (env : RelayEnv) (psm : ps_msghdr) (msg : Msg),
      psm.ps_cmd ≠ PS_ROUTE →
      ps_root_os env psm msg = ((-1, some ENOTSUP), []) := by
  intro env psm msg h
  simp [ps_root_os, h]

/-- Witness for C3: command tag 2 is rejected with `ENOTSUP` and an empty
kernel trace. -/
theorem C3_unsupported_cmd_enotsup_witness :
    ps_root_os (RelayEnv.mk (fun _ => some 3) (fun _ _ => true) (fun _ => 0))
        (ps_msghdr.mk 2 0) 0 = ((-1, some ENOTSUP), []) :=
  C3_unsupported_cmd_enotsup
    (RelayEnv.mk (fun _ => some 3) (fun _ _ => true) (fun _ => 0))
    (ps_msghdr.mk 2 0) 0 (by decide)

/-- C8: `ps_root_sendnetlink` serializes a `PS_ROUTE` command carrying
the protocol selector and the message; if the send fails it returns -1
locally without reading a response (no response event), and otherwise it
blocks reading the relay's response and returns either the byte count on
success or -1 with the relay's error code surfaced as the local errno. -/
theorem C8_request_route_roundtrip :
    ∀ (env : WorkerEnv) (protocol : Int) (msg : Msg),
      (env.sendOk = false →
        ps_root_sendnetlink env protocol msg = ((-1, none), []))
      ∧ (env.sendOk = true →
        (ps_root_sendnetlink env protocol msg).2
            = [WireEvent.sent PS_ROUTE (castUInt64 protocol) msg,
               WireEvent.gotResponse]
          ∧ (∀ n : Nat, env.response = Except.ok n →
              (ps_root_sendnetlink env protocol msg).1 = (Int.ofNat n, none))
          ∧ (∀ e : Nat, env.response = Except.error e →
              (ps_root_sendnetlink env protocol msg).1 = (-1, some e))) := by
  intro env protocol msg
  constructor
  · intro h
    simp [ps_root_sendnetlink, ps_sendmsg, h]
  · intro h
    refine ⟨?_, ?_, ?_⟩
    · cases hr : env.response <;>
        simp [ps_root_sendnetlink, ps_sendmsg, ps_root_readerror, h, hr]
    · intro n hn
      simp [ps_root_sendnetlink, ps_sendmsg, ps_root_readerror, h, hn]
    · intro e he
      simp [ps_root_sendnetlink, ps_sendmsg, ps_root_readerror, h, he]

/-- Witness for C8: a successful round trip returns the relay's byte
count with the request serialized as a `PS_ROUTE` command. -/
theorem C8_request_route_roundtrip_witness :
    (ps_root_sendnetlink (WorkerEnv.mk true (Except.ok 9)) 16 5).2
        = [WireEvent.sent PS_ROUTE (castUInt64 16) 5, WireEvent.gotResponse]
      ∧ (ps_root_sendnetlink (WorkerEnv.mk true (Except.ok 9)) 16 5).1
        = (Int.ofNat 9, none) :=
  ⟨((C8_request_route_roundtrip (WorkerEnv.mk true (Except.ok 9)) 16 5).2 rfl).1,
   ((C8_request_route_roundtrip (WorkerEnv.mk true (Except.ok 9)) 16 5).2 rfl).2.1
     9 rfl⟩

/-- C10: `ps_root_os` uses `(int)psm->ps_flags` as the protocol selector:
the cast keeps only the low 32 bits (reinterpreted as a signed 32-bit
int, hence the stated range), so two `PS_ROUTE` requests whose flags
agree on the low 32 bits — in particular, ones differing only in the
upper 32 bits — dispatch the same privileged operation with the same
result and the same kernel trace. -/
theorem C10_flags_truncated_to_int :
    (∀ n : Nat, -2 ^ 31 ≤ toInt32 n ∧ toInt32 n < 2 ^ 31)
    ∧ (∀ (env : RelayEnv) (msg : Msg) (f1 f2 : Nat),
      f1 % 2 ^ 32 = f2 % 2 ^ 32 →
      ps_root_os env (ps_msghdr.mk PS_ROUTE f1) msg
        = ps_root_os env (ps_msghdr.mk PS_ROUTE f2) msg) := by
  constructor
  · intro n
    simp only [toInt32]
    split <;> constructor <;> omega
  · intro env msg f1 f2 h
    have ht : toInt32 f1 = toInt32 f2 := by
      simp only [toInt32, h]
      split <;> omega
    simp [ps_root_os, ht]

/-- Witness for C10: flags `5` and `5 + k·2^64...` — here `5` and
`5 + 2^32` — give identical relay behaviour. -/
theorem C10_flags_truncated_to_int_witness :
    ps_root_os (RelayEnv.mk (fun _ => some 3) (fun _ _ => true) (fun _ => 4))
        (ps_msghdr.mk PS_ROUTE 5) 0
      = ps_root_os (RelayEnv.mk (fun _ => some 3) (fun _ _ => true) (fun _ => 4))
          (ps_msghdr.mk PS_ROUTE (5 + 2 ^ 32)) 0 :=
  C10_flags_truncated_to_int.2
    (RelayEnv.mk (fun _ => some 3) (fun _ _ => true) (fun _ => 4)) 0 5 (5 + 2 ^ 32)
    (by decide)

/-- C5: `ps_seccomp_enter` performs disable-new-privileges first and
install-filter second (the trace is always `[setNoNewPrivs]` or
`[setNoNewPrivs, setSeccompFilter]`, and the filter prctl is never
attempted when the first step fails); if either step fails it returns -1
with the failing step's errno, normalized by rewriting `EINVAL` to
`ENOSYS` and leaving every other code unchanged; if both steps succeed it
returns 0. -/
theorem C5_seccomp_enter_contract :
    ∀ env : PrctlEnv,
      ((ps_seccomp_enter env).2 = [PrctlOp.setNoNewPrivs]
        ∨ (ps_seccomp_enter env).2
            = [PrctlOp.setNoNewPrivs, PrctlOp.setSeccompFilter])
      ∧ (env.noNewPrivs = none → env.setFilter = none →
          ps_seccomp_enter env
            = ((0, none), [PrctlOp.setNoNewPrivs, PrctlOp.setSeccompFilter]))
      ∧ (∀ e : Nat, env.noNewPrivs = some e →
          ps_seccomp_enter env
            = ((-1, some (if e = EINVAL then ENOSYS else e)),
               [PrctlOp.setNoNewPrivs]))
      ∧ (∀ e : Nat, env.noNewPrivs = none → env.setFilter = some e →
          ps_seccomp_enter env
            = ((-1, some (if e = EINVAL then ENOSYS else e)),
               [PrctlOp.setNoNewPrivs, PrctlOp.setSeccompFilter]))
      ∧ (if (EINVAL : Nat) = EINVAL then ENOSYS else EINVAL) = ENOSYS
      ∧ (∀ e : Nat, e ≠ EINVAL → (if e = EINVAL then ENOSYS else e) = e) := by
  intro env
  obtain ⟨nnp, flt⟩ := env
  cases nnp with
  | some e0 =>
    refine ⟨Or.inl rfl, ?_, ?_, ?_, by decide, fun e he => if_neg he⟩
    · intro h1 _
      exact absurd h1 (by simp)
    · intro e he
      have he0 : e0 = e := by simpa using he
      subst he0
      rfl
    · intro e h1 _
      exact absurd h1 (by simp)
  | none =>
    cases flt with
    | some e0 =>
      refine ⟨Or.inr rfl, ?_, ?_, ?_, by decide, fun e he => if_neg he⟩
      · intro _ h2
        exact absurd h2 (by simp)
      · intro e he
        exact absurd he (by simp)
      · intro e _ h2
        have he0 : e0 = e := by simpa using h2
        subst he0
        rfl
    | none =>
      refine ⟨Or.inr rfl, fun _ _ => rfl, ?_, ?_, by decide, fun e he => if_neg he⟩
      · intro e he
        exact absurd he (by simp)
      · intro e _ h2
        exact absurd h2 (by simp)

/-- Witness for C5: a kernel without the filtering mechanism fails the
first prctl with `EINVAL`; the caller sees -1 with `ENOSYS` and the
second prctl is never performed. -/
theorem C5_seccomp_enter_contract_witness :
    ps_seccomp_enter (PrctlEnv.mk (some EINVAL) none)
      = ((-1, some ENOSYS), [PrctlOp.setNoNewPrivs]) := by
  have h :=
    (C5_seccomp_enter_contract (PrctlEnv.mk (some EINVAL) none)).2.2.1 EINVAL rfl
  simpa using h
